import Mathlib

/-!
Shallow embedding of `StockBis/app.py` (StockMaster Pro, a Flask + SQLAlchemy
stock-management application) and proofs about its route handlers.

Modelling conventions, in source order:

* The relational store (SQLite via SQLAlchemy) is a `DB` record holding the
  `product` and `sale` tables as lists of rows, plus the auto-increment
  counters for the two integer primary keys.
* Python `float` currency amounts are modelled as exact rationals (`Rat`):
  every arithmetic identity the handlers compute is stated over the very
  expressions the code evaluates, so exactness is the faithful reading.
* `datetime` values are integer timestamps (seconds); `timedelta(days=7)`
  is the constant `sevenDays`.
* A request's form data is an association list of string fields; `int(...)`
  and `float(...)` conversions are `Option`-valued parsers that return
  `none` exactly when the Python call raises (`TypeError` on a missing
  field, `ValueError` on a non-numeric one).  Lean's `String.toInt?` and
  the decimal parser below accept the canonical `[-]digits[.digits]`
  forms, a subset of Python's lexical space that covers every case the
  handlers distinguish (parse success versus parse failure).
* Each handler returns the new persisted state together with the flash
  message it produces (`category` `success` or `danger`).  A handler whose
  `try` block fails before `db.session.commit()` leaves the persisted
  state unchanged: the request-scoped session is discarded on return, so
  uncommitted attribute assignments never reach the store.
* `db.session.commit()` failures raised by the database itself are part of
  the model: writing `NULL` into a `nullable=False` column
  (`product.name`, `sale.product_id`) raises `IntegrityError`, which the
  handlers catch like any other error.  In particular
  `db.session.delete(product)` with the default (non-delete) relationship
  cascade of `Product.sales` nulls out `Sale.product_id` on the dependent
  rows, so deleting a product that has sales fails with `IntegrityError`
  and commits nothing.
-/

/-- Flash message category: `success` / `danger` strings in the source. -/
inductive FlashKind where
  | success
  | danger
deriving DecidableEq, Repr

/-- A flash message as produced by `flash(msg, category)`. -/
structure Flash where
  kind : FlashKind
  msg : String
deriving DecidableEq, Repr

/-- Row of the `product` table (`class Product(db.Model)`): id, name,
stock_quantity, buying_price, selling_price. -/
structure Product where
  id : Int
  name : String
  stock_quantity : Int
  buying_price : Rat
  selling_price : Rat
deriving DecidableEq, Repr

/-- Row of the `sale` table (`class Sale(db.Model)`): id, product_id,
quantity_sold, sale_date, profit_recorded. -/
structure Sale where
  id : Int
  product_id : Int
  quantity_sold : Int
  sale_date : Int
  profit_recorded : Rat
deriving DecidableEq, Repr

/-- The persisted store: both tables plus the auto-increment primary-key
counters SQLite maintains for `Product.id` and `Sale.id`. -/
structure DB where
  products : List Product
  sales : List Sale
  next_product_id : Int
  next_sale_id : Int
deriving DecidableEq, Repr

/-- Form data of a POST request: field name to submitted string value. -/
abbrev Form := List (String × String)

/-- Translation of `request.form.get(key)`: the submitted value, or `None`
when the field is absent. -/
def formGet (form : Form) (key : String) : Option String :=
  (form.find? (fun kv => kv.1 == key)).map (fun kv => kv.2)

/-- Value of a digit string read in base 10. -/
def digitsVal (cs : List Char) : Nat :=
  cs.foldl (fun a c => 10 * a + (c.toNat - 48)) 0

/-- Integer parser modelling `int(s)` on the `[sign]digits` strings the
forms submit: `none` exactly when a stray character appears or no digit
is present, where Python raises `ValueError`. -/
def parseInt? (s : String) : Option Int :=
  match s.toList with
  | '-' :: rest =>
      if !rest.isEmpty && rest.all Char.isDigit then
        some (-(digitsVal rest : Int))
      else none
  | '+' :: rest =>
      if !rest.isEmpty && rest.all Char.isDigit then
        some ((digitsVal rest : Int))
      else none
  | cs =>
      if !cs.isEmpty && cs.all Char.isDigit then
        some ((digitsVal cs : Int))
      else none

/-- Translation of `int(x)` applied to `request.form.get(key)` with no
default: a missing field (`None`) raises `TypeError`, a non-numeric string
raises `ValueError`; both surface as `none`. -/
def pyInt (form : Form) (key : String) : Option Int :=
  match formGet form key with
  | none => none
  | some s => parseInt? s

/-- Translation of `int(request.form.get(key, 0))`: an absent field yields
the default `0`; a present non-numeric string raises (`none`). -/
def pyIntD0 (form : Form) (key : String) : Option Int :=
  match formGet form key with
  | none => some 0
  | some s => parseInt? s

/-- Decimal parser modelling `float(s)` on the `[-]digits[.digits]` strings
the forms submit: `none` exactly when no digit is present or a stray
character appears, where Python raises `ValueError`. -/
def parseDecimal? (s : String) : Option Rat :=
  let cs := s.toList
  let body : List Char :=
    match cs with
    | '-' :: rest => rest
    | '+' :: rest => rest
    | _ => cs
  let isNeg : Bool :=
    match cs with
    | '-' :: _ => true
    | _ => false
  let intPart := body.takeWhile Char.isDigit
  let rest := body.dropWhile Char.isDigit
  let mag? : Option Rat :=
    match rest with
    | [] =>
        if intPart.isEmpty then none
        else some ((digitsVal intPart : Rat))
    | '.' :: fracPart =>
        if fracPart.all Char.isDigit && !(intPart.isEmpty && fracPart.isEmpty) then
          some ((digitsVal intPart : Rat)
            + (digitsVal fracPart : Rat) / ((10 : Rat) ^ fracPart.length))
        else none
    | _ => none
  match mag? with
  | none => none
  | some v => some (if isNeg then -v else v)

/-- Translation of `float(request.form.get(key, 0))`: an absent field yields
`float(0) = 0.0`; a present non-numeric string raises (`none`). -/
def pyFloatD0 (form : Form) (key : String) : Option Rat :=
  match formGet form key with
  | none => some 0
  | some s => parseDecimal? s

/-- Translation of `Product.query.get(pid)` / `get_or_404(pid)`: the row of
the `product` table with primary key `pid`, if any. -/
def findProduct (st : DB) (pid : Int) : Option Product :=
  st.products.find? (fun p => p.id == pid)

/-- SQL `UPDATE product SET stock_quantity = v WHERE id = pid`, as flushed
for `product.stock_quantity -= quantity_sold` on the loaded row. -/
def setStock (ps : List Product) (pid : Int) (v : Int) : List Product :=
  ps.map (fun p => if p.id == pid then { p with stock_quantity := v } else p)

/-- SQL `UPDATE` of the four editable columns, as flushed by
`edit_product`'s four attribute assignments on the loaded row. -/
def setFields (ps : List Product) (pid : Int) (nm : String) (sq : Int)
    (bp sp : Rat) : List Product :=
  ps.map (fun p =>
    if p.id == pid then
      { p with name := nm, stock_quantity := sq,
               buying_price := bp, selling_price := sp }
    else p)

/-- Error flash of `process_sale`'s `except` branch; `e` stands for
`str(e)` of the caught exception. -/
def saleError (e : String) : Flash :=
  ⟨FlashKind.danger, "❌ Erreur lors de la vente : " ++ e⟩

/-- The insufficient-stock flash, reporting the available quantity. -/
def insufficientMsg (avail : Int) : String :=
  "❌ Stock insuffisant ! Disponible : " ++ toString avail

/-- Translation of the `/sale/process` handler (`process_sale`).  Reads and
parses `product_id` and `quantity_sold`, loads the product (`get_or_404`
aborts are caught by the handler's own `except`), rejects the sale when
stock is below the requested quantity, and otherwise commits — in one
transaction — the new `Sale` row with the frozen profit
`(selling_price - buying_price) * quantity_sold` and the stock decrement.
The success flash's interpolated details (name, quantity, `:.2f` profit)
are abbreviated to a fixed prefix; no claim depends on that text. -/
def process_sale (st : DB) (now : Int) (form : Form) : DB × Flash :=
  match pyInt form "product_id" with
  | none => (st, saleError "invalid product_id")
  | some product_id =>
    match pyInt form "quantity_sold" with
    | none => (st, saleError "invalid quantity_sold")
    | some quantity_sold =>
      match findProduct st product_id with
      | none => (st, saleError "404 Not Found")
      | some product =>
        if product.stock_quantity < quantity_sold then
          (st, ⟨FlashKind.danger, insufficientMsg product.stock_quantity⟩)
        else
          let profit : Rat :=
            (product.selling_price - product.buying_price) * (quantity_sold : Rat)
          let new_sale : Sale :=
            { id := st.next_sale_id
              product_id := product_id
              quantity_sold := quantity_sold
              sale_date := now
              profit_recorded := profit }
          ({ products := setStock st.products product_id
               (product.stock_quantity - quantity_sold)
             sales := st.sales ++ [new_sale]
             next_product_id := st.next_product_id
             next_sale_id := st.next_sale_id + 1 },
           ⟨FlashKind.success, "✅ Vente enregistrée !"⟩)

/-- Translation of the `/inventory/add` handler (`add_product`).  A missing
`name` reaches `db.session.commit()` as `NULL` in a `nullable=False`
column and raises `IntegrityError`; numeric fields default to `0` when
absent and raise `ValueError` when non-numeric. -/
def add_product (st : DB) (form : Form) : DB × Flash :=
  match pyIntD0 form "stock_quantity" with
  | none => (st, ⟨FlashKind.danger, "❌ Erreur lors de l ajout du produit"⟩)
  | some stock_quantity =>
    match pyFloatD0 form "buying_price" with
    | none => (st, ⟨FlashKind.danger, "❌ Erreur lors de l ajout du produit"⟩)
    | some buying_price =>
      match pyFloatD0 form "selling_price" with
      | none => (st, ⟨FlashKind.danger, "❌ Erreur lors de l ajout du produit"⟩)
      | some selling_price =>
        match formGet form "name" with
        | none => (st, ⟨FlashKind.danger, "❌ Erreur lors de l ajout du produit"⟩)
        | some name =>
          ({ st with
             products := st.products ++
               [{ id := st.next_product_id
                  name := name
                  stock_quantity := stock_quantity
                  buying_price := buying_price
                  selling_price := selling_price }]
             next_product_id := st.next_product_id + 1 },
           ⟨FlashKind.success, "✅ Produit ajouté avec succès !"⟩)

/-- Translation of the `/inventory/edit/<id>` handler (`edit_product`).
The loaded row's four columns are overwritten from the form and committed;
any parse failure, a missing product, or a `NULL` name aborts before (or
at) the commit, leaving the store unchanged. -/
def edit_product (st : DB) (product_id : Int) (form : Form) : DB × Flash :=
  match findProduct st product_id with
  | none => (st, ⟨FlashKind.danger, "❌ Erreur lors de la modification : 404 Not Found"⟩)
  | some _product =>
    match formGet form "name" with
    | none => (st, ⟨FlashKind.danger, "❌ Erreur lors de la modification : IntegrityError"⟩)
    | some name =>
      match pyIntD0 form "stock_quantity" with
      | none => (st, ⟨FlashKind.danger, "❌ Erreur lors de la modification : ValueError"⟩)
      | some stock_quantity =>
        match pyFloatD0 form "buying_price" with
        | none => (st, ⟨FlashKind.danger, "❌ Erreur lors de la modification : ValueError"⟩)
        | some buying_price =>
          match pyFloatD0 form "selling_price" with
          | none => (st, ⟨FlashKind.danger, "❌ Erreur lors de la modification : ValueError"⟩)
          | some selling_price =>
            ({ st with
               products := setFields st.products product_id name
                 stock_quantity buying_price selling_price },
             ⟨FlashKind.success, "✅ Produit modifié avec succès !"⟩)

/-- Translation of the `/inventory/delete/<id>` handler (`delete_product`).
`db.session.delete(product)` under the default relationship cascade of
`Product.sales` nulls out `Sale.product_id` on every dependent sale at
flush; that column is `nullable=False`, so the commit raises
`IntegrityError` whenever a sale references the product, and the handler's
`except` converts it into a danger flash with nothing committed.  With no
dependent sale the row is deleted (`DELETE FROM product WHERE id = pid`). -/
def delete_product (st : DB) (product_id : Int) : DB × Flash :=
  match findProduct st product_id with
  | none => (st, ⟨FlashKind.danger, "❌ Erreur lors de la suppression : 404 Not Found"⟩)
  | some _product =>
    if st.sales.any (fun s => s.product_id == product_id) then
      (st, ⟨FlashKind.danger, "❌ Erreur lors de la suppression : IntegrityError"⟩)
    else
      ({ st with products := st.products.filter (fun p => !(p.id == product_id)) },
       ⟨FlashKind.success, "✅ Produit supprimé avec succès !"⟩)

/-- Translation of the `/inventory` listing: `Product.query.all()`. -/
def inventory (st : DB) : List Product :=
  st.products

/-- Translation of `timedelta(days=7)` in seconds. -/
def sevenDays : Int := 7 * 24 * 60 * 60

/-- The dashboard's filter `Sale.sale_date >= week_ago` with
`week_ago = now - timedelta(days=7)`. -/
def codeWindowMem (now : Int) (s : Sale) : Bool :=
  decide (now - sevenDays ≤ s.sale_date)

/-- The `weekly_sales` query result of the dashboard. -/
def weeklySales (st : DB) (now : Int) : List Sale :=
  st.sales.filter (codeWindowMem now)

/-- The dashboard's revenue loop: `weekly_revenue += product.selling_price
* sale.quantity_sold` over the weekly sales, looking each sale's product
up at report time.  A vanished product makes `Product.query.get` return
`None` and the attribute access raise (`none`: the request fails with no
flash). -/
def revenueOfSales (st : DB) (acc : Rat) : List Sale → Option Rat
  | [] => some acc
  | s :: rest =>
    match findProduct st s.product_id with
    | none => none
    | some p => revenueOfSales st (acc + p.selling_price * (s.quantity_sold : Rat)) rest

/-- The dashboard's `weekly_profit = sum(sale.profit_recorded ...)`. -/
def weeklyProfit (st : DB) (now : Int) : Rat :=
  ((weeklySales st now).map Sale.profit_recorded).sum

/-- Translation of the `/` handler (`dashboard`): the pair
`(weekly_revenue, weekly_profit)` it renders, or `none` when the revenue
loop dereferences a deleted product. -/
def dashboard (st : DB) (now : Int) : Option (Rat × Rat) :=
  match revenueOfSales st 0 (weeklySales st now) with
  | none => none
  | some weekly_revenue => some (weekly_revenue, weeklyProfit st now)

/-- The JSON object shape returned by `/api/product/<id>`. -/
structure ProductInfo where
  id : Int
  name : String
  stock_quantity : Int
  buying_price : Rat
  selling_price : Rat
deriving DecidableEq, Repr

/-- Translation of the `/api/product/<id>` handler (`get_product_info`):
the five-field JSON object for an existing product, `none` (the 404
response of `get_or_404`, uncaught here) otherwise. -/
def get_product_info (st : DB) (product_id : Int) : Option ProductInfo :=
  (findProduct st product_id).map (fun p =>
    { id := p.id
      name := p.name
      stock_quantity := p.stock_quantity
      buying_price := p.buying_price
      selling_price := p.selling_price })

/-- Store with one product (id 1, stock 3) used by the C2 witness. -/
def stC2 : DB :=
  { products := [{ id := 1, name := "w", stock_quantity := 3,
                   buying_price := 2, selling_price := 5 }],
    sales := [], next_product_id := 2, next_sale_id := 1 }

/-- Sale request for 5 units of product 1, more than the 3 in stock. -/
def formC2 : Form := [("product_id", "1"), ("quantity_sold", "5")]

/-- Store with one product (id 1, stock 5) used by the C7 theorems. -/
def stC7 : DB :=
  { products := [{ id := 1, name := "w", stock_quantity := 5,
                   buying_price := 2, selling_price := 5 }],
    sales := [], next_product_id := 2, next_sale_id := 1 }

/-- Store with product 1 and one sale referencing it, for the C6
counterexample. -/
def stC6 : DB :=
  { products := [{ id := 1, name := "w", stock_quantity := 6,
                   buying_price := 2, selling_price := 5 }],
    sales := [{ id := 1, product_id := 1, quantity_sold := 4,
                sale_date := 50, profit_recorded := 12 }],
    next_product_id := 2, next_sale_id := 2 }

/-- The weekly window exactly as the claim words it: the half-open trailing
interval `[now − 7 days, now)`.  Written from the specification, for
comparison with the code's `codeWindowMem`. -/
def specWindowMem (now : Int) (s : Sale) : Bool :=
  decide (now - sevenDays ≤ s.sale_date) && decide (s.sale_date < now)

/-- The selling price the dashboard's revenue loop reads for a sale: the
price stored on the sale's product at report time (0 is never reached in
a run where the product exists; the loop fails first). -/
def lookupPrice (st : DB) (s : Sale) : Rat :=
  match findProduct st s.product_id with
  | some p => p.selling_price
  | none => 0

/-- Reference weekly revenue: every sale dated at or after `now − 7 days`
contributes its product's report-time price times its quantity; every
other sale contributes nothing. -/
def specWeeklyRevenueLB (st : DB) (now : Int) : Rat :=
  (st.sales.map (fun s =>
    if codeWindowMem now s then lookupPrice st s * (s.quantity_sold : Rat)
    else 0)).sum

/-- Reference weekly profit: every sale dated at or after `now − 7 days`
contributes its frozen `profit_recorded`; every other sale contributes
nothing. -/
def specWeeklyProfitLB (st : DB) (now : Int) : Rat :=
  (st.sales.map (fun s =>
    if codeWindowMem now s then s.profit_recorded else 0)).sum

/-- Store with one product and one sale dated exactly at report time, for
the C5 counterexample. -/
def stC5 : DB :=
  { products := [{ id := 1, name := "w", stock_quantity := 9,
                   buying_price := 2, selling_price := 5 }],
    sales := [{ id := 1, product_id := 1, quantity_sold := 1,
                sale_date := 1000, profit_recorded := 3 }],
    next_product_id := 2, next_sale_id := 2 }

/-- Concrete store for the C9 witness: one product (sell 5) with one
recent sale of one unit. -/
def stC9 : DB :=
  { products := [{ id := 1, name := "w", stock_quantity := 9,
                   buying_price := 2, selling_price := 5 }],
    sales := [{ id := 1, product_id := 1, quantity_sold := 1,
                sale_date := 900, profit_recorded := 3 }],
    next_product_id := 2, next_sale_id := 2 }

/-- Edit form raising product 1's selling price from 5 to 50. -/
def formC9 : Form :=
  [("name", "w"), ("stock_quantity", "9"),
   ("buying_price", "2"), ("selling_price", "50")]

/-! Helper lemmas about the store primitives. -/

/-- Updating the stock of product `pid` rewrites exactly the row `find?`
locates, leaving its other columns intact. -/
theorem find?_setStock (ps : List Product) (pid : Int) (v : Int) :
    List.find? (fun p => p.id == pid) (setStock ps pid v)
      = (List.find? (fun p => p.id == pid) ps).map
          (fun p => { p with stock_quantity := v }) := by
  unfold setStock
  rw [List.find?_map]
  have hpred : ((fun p : Product => p.id == pid) ∘
      fun p => if p.id == pid then { p with stock_quantity := v } else p)
      = (fun p : Product => p.id == pid) := by
    funext a
    by_cases h : a.id = pid <;> simp [h]
  rw [hpred]
  cases hf : List.find? (fun p : Product => p.id == pid) ps with
  | none => rfl
  | some p0 =>
    have hp0 := List.find?_some hf
    simp only [] at hp0
    have heq : p0.id = pid := by simpa using hp0
    simp [heq]

/-- Rows of other products are untouched by a stock update. -/
theorem mem_setStock_of_ne (ps : List Product) (pid : Int) (v : Int)
    (p : Product) (hp : p ∈ ps) (hne : p.id ≠ pid) :
    p ∈ setStock ps pid v := by
  refine List.mem_map.mpr ⟨p, hp, ?_⟩
  simp [hne]

/-- A row of the updated table whose id differs from `pid` was already in
the table. -/
theorem mem_of_mem_setStock_of_ne (ps : List Product) (pid : Int) (v : Int)
    (p : Product) (hp : p ∈ setStock ps pid v) (hne : p.id ≠ pid) :
    p ∈ ps := by
  rcases List.mem_map.mp hp with ⟨a, ha, hpa⟩
  by_cases h : a.id = pid
  · exfalso
    apply hne
    rw [← hpa]
    simp [h]
  · rwa [← hpa, if_neg (by simpa using h)]

/-- C1: for every product `P` and requested quantity `q` with
`q ≤ P.stock_quantity`, processing a sale via `/sale/process` decreases
`P.stock_quantity` by exactly `q` and appends exactly one new `Sale`
record whose `profit_recorded` equals
`(P.selling_price - P.buying_price) * q`, with all other products and all
pre-existing sales unchanged. -/
theorem process_sale_accepts_and_records (st : DB) (now : Int) (form : Form)
    (pid q : Int) (P : Product)
    (hpid : pyInt form "product_id" = some pid)
    (hq : pyInt form "quantity_sold" = some q)
    (hP : findProduct st pid = some P)
    (hstock : q ≤ P.stock_quantity) :
    findProduct (process_sale st now form).1 pid
        = some { P with stock_quantity := P.stock_quantity - q } ∧
    (process_sale st now form).1.sales = st.sales ++
        [{ id := st.next_sale_id, product_id := pid, quantity_sold := q,
           sale_date := now,
           profit_recorded := (P.selling_price - P.buying_price) * (q : Rat) }] ∧
    (∀ p ∈ st.products, p.id ≠ pid → p ∈ (process_sale st now form).1.products) ∧
    (∀ p ∈ (process_sale st now form).1.products, p.id ≠ pid → p ∈ st.products) := by
  have hnl : ¬ P.stock_quantity < q := not_lt.mpr hstock
  simp only [process_sale, hpid, hq, hP, if_neg hnl]
  refine ⟨?_, trivial, ?_, ?_⟩
  · simp only [findProduct] at hP ⊢
    rw [find?_setStock, hP]
    rfl
  · intro p hp hne
    exact mem_setStock_of_ne st.products pid (P.stock_quantity - q) p hp hne
  · intro p hp hne
    exact mem_of_mem_setStock_of_ne st.products pid (P.stock_quantity - q) p hp hne

/-- Concrete run of `process_sale_accepts_and_records`: product 1 holds 10
units at buy 2 / sell 5; selling 4 leaves 6 in stock and records a sale
with profit 12. -/
theorem process_sale_accepts_and_records_witness :
    (4 : Int) ≤ (10 : Int) ∧
    (findProduct (process_sale
        { products := [{ id := 1, name := "w", stock_quantity := 10,
                         buying_price := 2, selling_price := 5 }],
          sales := [], next_product_id := 2, next_sale_id := 1 } 1000
        [("product_id", "1"), ("quantity_sold", "4")]).1 1
      = some { id := 1, name := "w", stock_quantity := 10 - 4,
               buying_price := 2, selling_price := 5 } ∧
    (process_sale
        { products := [{ id := 1, name := "w", stock_quantity := 10,
                         buying_price := 2, selling_price := 5 }],
          sales := [], next_product_id := 2, next_sale_id := 1 } 1000
        [("product_id", "1"), ("quantity_sold", "4")]).1.sales = [] ++
        [{ id := 1, product_id := 1, quantity_sold := 4, sale_date := 1000,
           profit_recorded := ((5 : Rat) - (2 : Rat)) * ((4 : Int) : Rat) }]) :=
  ⟨by decide,
   (process_sale_accepts_and_records
      { products := [{ id := 1, name := "w", stock_quantity := 10,
                       buying_price := 2, selling_price := 5 }],
        sales := [], next_product_id := 2, next_sale_id := 1 } 1000
      [("product_id", "1"), ("quantity_sold", "4")] 1 4
      { id := 1, name := "w", stock_quantity := 10, buying_price := 2,
        selling_price := 5 }
      (by decide) (by decide) (by decide) (by decide)).1,
   (process_sale_accepts_and_records
      { products := [{ id := 1, name := "w", stock_quantity := 10,
                       buying_price := 2, selling_price := 5 }],
        sales := [], next_product_id := 2, next_sale_id := 1 } 1000
      [("product_id", "1"), ("quantity_sold", "4")] 1 4
      { id := 1, name := "w", stock_quantity := 10, buying_price := 2,
        selling_price := 5 }
      (by decide) (by decide) (by decide) (by decide)).2.1⟩

/-- C2: every failing invocation of `/sale/process` — unparsable or missing
form field, unknown product id, or requested quantity above stock — leaves
the persisted state (all products and the whole `Sale` table) unchanged
and produces a danger flash; in the insufficient-stock case the flash
reports the available quantity.  With the state returned untouched,
neither the stock decrement nor the `Sale` insert is applied on failure. -/
theorem process_sale_failure_leaves_state (st : DB) (now : Int) (form : Form)
    (hfail : pyInt form "product_id" = none ∨
             pyInt form "quantity_sold" = none ∨
             (∃ pid, pyInt form "product_id" = some pid ∧
                findProduct st pid = none) ∨
             (∃ pid q P, pyInt form "product_id" = some pid ∧
                pyInt form "quantity_sold" = some q ∧
                findProduct st pid = some P ∧ P.stock_quantity < q)) :
    (process_sale st now form).1 = st ∧
    (process_sale st now form).2.kind = FlashKind.danger ∧
    (∀ pid q P, pyInt form "product_id" = some pid →
      pyInt form "quantity_sold" = some q →
      findProduct st pid = some P → P.stock_quantity < q →
      (process_sale st now form).2.msg = insufficientMsg P.stock_quantity) := by
  rcases hfail with h1 | h2 | ⟨pid, hpid, hnone⟩ | ⟨pid, q, P, hpid, hq, hP, hlt⟩
  · refine ⟨by simp [process_sale, h1], by simp [process_sale, h1, saleError], ?_⟩
    intro pid q P hpid hq hP hlt
    simp [h1] at hpid
  · cases h1 : pyInt form "product_id" with
    | none =>
      refine ⟨by simp [process_sale, h1], by simp [process_sale, h1, saleError], ?_⟩
      intro pid q P hpid hq hP hlt
      simp [h1] at hpid
    | some pid0 =>
      refine ⟨by simp [process_sale, h1, h2],
              by simp [process_sale, h1, h2, saleError], ?_⟩
      intro pid q P hpid hq hP hlt
      simp [h2] at hq
  · cases h2 : pyInt form "quantity_sold" with
    | none =>
      refine ⟨by simp [process_sale, hpid, h2],
              by simp [process_sale, hpid, h2, saleError], ?_⟩
      intro pid2 q P hpid2 hq hP hlt
      simp [h2] at hq
    | some q0 =>
      refine ⟨by simp [process_sale, hpid, h2, hnone],
              by simp [process_sale, hpid, h2, hnone, saleError], ?_⟩
      intro pid2 q P hpid2 hq hP hlt
      rw [hpid] at hpid2
      rw [← Option.some_inj.mp hpid2, hnone] at hP
      simp at hP
  · have hcond : P.stock_quantity < q := hlt
    refine ⟨by simp [process_sale, hpid, hq, hP, if_pos hcond],
            by simp [process_sale, hpid, hq, hP, if_pos hcond], ?_⟩
    intro pid2 q2 P2 hpid2 hq2 hP2 hlt2
    rw [hpid] at hpid2
    rw [hq] at hq2
    rw [← Option.some_inj.mp hpid2] at hP2
    rw [hP] at hP2
    rw [← Option.some_inj.mp hP2]
    simp [process_sale, hpid, hq, hP, if_pos hcond]

/-- Concrete run of `process_sale_failure_leaves_state`: requesting 5 of a
product holding 3 changes nothing and flashes the available quantity. -/
theorem process_sale_failure_leaves_state_witness :
    (process_sale stC2 0 formC2).1 = stC2 ∧
    (process_sale stC2 0 formC2).2.kind = FlashKind.danger ∧
    (process_sale stC2 0 formC2).2.msg = insufficientMsg 3 := by
  have h := process_sale_failure_leaves_state stC2 0 formC2
    (Or.inr (Or.inr (Or.inr ⟨1, 5,
      { id := 1, name := "w", stock_quantity := 3, buying_price := 2,
        selling_price := 5 },
      by decide, by decide, by decide, by decide⟩)))
  exact ⟨h.1, h.2.1,
    h.2.2 1 5
      { id := 1, name := "w", stock_quantity := 3, buying_price := 2,
        selling_price := 5 }
      (by decide) (by decide) (by decide) (by decide)⟩

/-- C3: `/sale/process` never drives a stock negative: if every product's
`stock_quantity` is non-negative before the request, it is non-negative
after it, whether the sale was accepted or rejected. -/
theorem process_sale_stock_nonneg (st : DB) (now : Int) (form : Form)
    (hpos : ∀ p ∈ st.products, 0 ≤ p.stock_quantity) :
    ∀ p ∈ (process_sale st now form).1.products, 0 ≤ p.stock_quantity := by
  intro p hp
  cases h1 : pyInt form "product_id" with
  | none =>
    simp only [process_sale, h1] at hp
    exact hpos p hp
  | some pid =>
    cases h2 : pyInt form "quantity_sold" with
    | none =>
      simp only [process_sale, h1, h2] at hp
      exact hpos p hp
    | some q =>
      cases h3 : findProduct st pid with
      | none =>
        simp only [process_sale, h1, h2, h3] at hp
        exact hpos p hp
      | some P =>
        by_cases h4 : P.stock_quantity < q
        · simp only [process_sale, h1, h2, h3, if_pos h4] at hp
          exact hpos p hp
        · simp only [process_sale, h1, h2, h3, if_neg h4, setStock,
            List.mem_map] at hp
          rcases hp with ⟨a, ha, rfl⟩
          by_cases h5 : a.id = pid
          · simp only [h5, beq_self_eq_true, if_true]
            exact sub_nonneg.mpr (not_lt.mp h4)
          · have hb : (a.id == pid) = false := by simp [h5]
            simp only [hb, Bool.false_eq_true, if_false]
            exact hpos a ha

/-- Concrete run of `process_sale_stock_nonneg`: selling the full stock of
product 1 leaves its stock at 0, still non-negative. -/
theorem process_sale_stock_nonneg_witness :
    0 ≤ ({ id := 1, name := "w", stock_quantity := 10 - 10, buying_price := 2,
           selling_price := 5 } : Product).stock_quantity :=
  process_sale_stock_nonneg
    { products := [{ id := 1, name := "w", stock_quantity := 10,
                     buying_price := 2, selling_price := 5 }],
      sales := [], next_product_id := 2, next_sale_id := 1 } 0
    [("product_id", "1"), ("quantity_sold", "10")]
    (by decide)
    { id := 1, name := "w", stock_quantity := 10 - 10, buying_price := 2,
      selling_price := 5 }
    (by decide)

/-- C4: `profit_recorded` is written once at sale creation and never
mutated afterwards.  Editing a product (any field, prices included)
leaves the `Sale` table identical; adding and deleting products also
leave it identical; processing a sale only appends, so every pre-existing
`Sale` record survives unchanged. -/
theorem sale_records_immutable (st : DB) (pid pid2 : Int)
    (form form2 form3 : Form) (now : Int) :
    (edit_product st pid form).1.sales = st.sales ∧
    (add_product st form2).1.sales = st.sales ∧
    (delete_product st pid2).1.sales = st.sales ∧
    (∀ s ∈ st.sales, s ∈ (process_sale st now form3).1.sales) := by
  refine ⟨?_, ?_, ?_, ?_⟩
  · unfold edit_product
    repeat' split
    all_goals rfl
  · unfold add_product
    repeat' split
    all_goals rfl
  · unfold delete_product
    repeat' split
    all_goals rfl
  · intro s hs
    unfold process_sale
    repeat' split
    all_goals simp only [List.mem_append]
    all_goals try exact hs
    all_goals exact Or.inl hs

/-- Concrete run of `sale_records_immutable`: after editing product 1's
prices, the recorded sale (profit 12) is still exactly as created. -/
theorem sale_records_immutable_witness :
    (edit_product
        { products := [{ id := 1, name := "w", stock_quantity := 6,
                         buying_price := 2, selling_price := 5 }],
          sales := [{ id := 1, product_id := 1, quantity_sold := 4,
                      sale_date := 50, profit_recorded := 12 }],
          next_product_id := 2, next_sale_id := 2 } 1
        [("name", "w"), ("stock_quantity", "6"),
         ("buying_price", "9"), ("selling_price", "99")]).1.sales
      = [{ id := 1, product_id := 1, quantity_sold := 4,
           sale_date := 50, profit_recorded := 12 }] ∧
    { id := 1, product_id := 1, quantity_sold := 4,
      sale_date := 50, profit_recorded := (12 : Rat) } ∈
      (process_sale
        { products := [{ id := 1, name := "w", stock_quantity := 6,
                         buying_price := 2, selling_price := 5 }],
          sales := [{ id := 1, product_id := 1, quantity_sold := 4,
                      sale_date := 50, profit_recorded := 12 }],
          next_product_id := 2, next_sale_id := 2 } 60
        [("product_id", "1"), ("quantity_sold", "1")]).1.sales :=
  ⟨(sale_records_immutable
      { products := [{ id := 1, name := "w", stock_quantity := 6,
                       buying_price := 2, selling_price := 5 }],
        sales := [{ id := 1, product_id := 1, quantity_sold := 4,
                    sale_date := 50, profit_recorded := 12 }],
        next_product_id := 2, next_sale_id := 2 } 1 1
      [("name", "w"), ("stock_quantity", "6"),
       ("buying_price", "9"), ("selling_price", "99")]
      [("name", "w")] [("product_id", "1"), ("quantity_sold", "1")] 60).1,
   (sale_records_immutable
      { products := [{ id := 1, name := "w", stock_quantity := 6,
                       buying_price := 2, selling_price := 5 }],
        sales := [{ id := 1, product_id := 1, quantity_sold := 4,
                    sale_date := 50, profit_recorded := 12 }],
        next_product_id := 2, next_sale_id := 2 } 1 1
      [("name", "w"), ("stock_quantity", "6"),
       ("buying_price", "9"), ("selling_price", "99")]
      [("name", "w")] [("product_id", "1"), ("quantity_sold", "1")] 60).2.2.2
     { id := 1, product_id := 1, quantity_sold := 4,
       sale_date := 50, profit_recorded := 12 }
     (by decide)⟩

/-- C8: `/api/product/<id>` returns the five declared fields with the
stored values for an existing product, and a not-found failure for an
unknown id. -/
theorem api_product_info_fields (st : DB) (pid : Int) :
    (∀ P, findProduct st pid = some P →
      get_product_info st pid = some
        { id := P.id, name := P.name, stock_quantity := P.stock_quantity,
          buying_price := P.buying_price, selling_price := P.selling_price }) ∧
    (findProduct st pid = none → get_product_info st pid = none) := by
  constructor
  · intro P h
    simp [get_product_info, h]
  · intro h
    simp [get_product_info, h]

/-- Concrete run of `api_product_info_fields`: product 1 is reported with
its five stored values, product 2 as not found. -/
theorem api_product_info_fields_witness :
    get_product_info
        { products := [{ id := 1, name := "w", stock_quantity := 3,
                         buying_price := 2, selling_price := 5 }],
          sales := [], next_product_id := 2, next_sale_id := 1 } 1
      = some { id := 1, name := "w", stock_quantity := 3,
               buying_price := 2, selling_price := 5 } ∧
    get_product_info
        { products := [{ id := 1, name := "w", stock_quantity := 3,
                         buying_price := 2, selling_price := 5 }],
          sales := [], next_product_id := 2, next_sale_id := 1 } 2
      = none :=
  ⟨(api_product_info_fields
      { products := [{ id := 1, name := "w", stock_quantity := 3,
                       buying_price := 2, selling_price := 5 }],
        sales := [], next_product_id := 2, next_sale_id := 1 } 1).1
     { id := 1, name := "w", stock_quantity := 3, buying_price := 2,
       selling_price := 5 }
     (by decide),
   (api_product_info_fields
      { products := [{ id := 1, name := "w", stock_quantity := 3,
                       buying_price := 2, selling_price := 5 }],
        sales := [], next_product_id := 2, next_sale_id := 1 } 2).2
     (by decide)⟩

/-- C10: in `/inventory/add` and `/inventory/edit/<id>`, a numeric form
field that is absent falls back to the `request.form.get(key, 0)` default
and is parsed as 0: with a name present and the remaining numeric fields
parsing, the product is created (resp. updated) with that field equal to
0 and a success flash is shown. -/
theorem missing_numeric_field_defaults_to_zero (st : DB) (pid : Int)
    (form : Form) (nm : String) (sq : Int) (bp sp : Rat)
    (hnm : formGet form "name" = some nm)
    (hsq : pyIntD0 form "stock_quantity" = some sq)
    (hbp : pyFloatD0 form "buying_price" = some bp)
    (hsp : pyFloatD0 form "selling_price" = some sp) :
    (formGet form "stock_quantity" = none → sq = 0) ∧
    (formGet form "buying_price" = none → bp = 0) ∧
    (formGet form "selling_price" = none → sp = 0) ∧
    ((add_product st form).1.products = st.products ++
        [{ id := st.next_product_id, name := nm, stock_quantity := sq,
           buying_price := bp, selling_price := sp }] ∧
      (add_product st form).2.kind = FlashKind.success) ∧
    (∀ P, findProduct st pid = some P →
      (edit_product st pid form).1.products
          = setFields st.products pid nm sq bp sp ∧
        (edit_product st pid form).2.kind = FlashKind.success) := by
  refine ⟨?_, ?_, ?_, ?_, ?_⟩
  · intro h
    simp only [pyIntD0, h] at hsq
    exact (Option.some_inj.mp hsq).symm
  · intro h
    simp only [pyFloatD0, h] at hbp
    exact (Option.some_inj.mp hbp).symm
  · intro h
    simp only [pyFloatD0, h] at hsp
    exact (Option.some_inj.mp hsp).symm
  · constructor
    · simp [add_product, hnm, hsq, hbp, hsp]
    · simp [add_product, hnm, hsq, hbp, hsp]
  · intro P hP
    constructor
    · simp [edit_product, hP, hnm, hsq, hbp, hsp]
    · simp [edit_product, hP, hnm, hsq, hbp, hsp]

/-- Concrete run of `missing_numeric_field_defaults_to_zero`: a form with
only a name and a selling price creates a product whose stock and buying
price are 0, with a success flash. -/
theorem missing_numeric_field_defaults_to_zero_witness :
    (add_product
        { products := [], sales := [], next_product_id := 1,
          next_sale_id := 1 }
        [("name", "w"), ("selling_price", "5")]).1.products = [] ++
      [{ id := 1, name := "w", stock_quantity := 0, buying_price := 0,
         selling_price := 5 }] ∧
    (add_product
        { products := [], sales := [], next_product_id := 1,
          next_sale_id := 1 }
        [("name", "w"), ("selling_price", "5")]).2.kind
      = FlashKind.success :=
  (missing_numeric_field_defaults_to_zero
    { products := [], sales := [], next_product_id := 1, next_sale_id := 1 }
    7 [("name", "w"), ("selling_price", "5")] "w" 0 0 5
    (by decide) (by decide) (by decide) (by decide)).2.2.2.1

/-- C7 counterexample: the claim says a request with quantity 0 is
rejected and creates no `Sale`, but `process_sale` only checks
`stock < quantity`, so quantity 0 passes the check and a `Sale` row with
`quantity_sold = 0` is committed with a success flash. -/
theorem zero_quantity_sale_created :
    ((process_sale stC7 40
        [("product_id", "1"), ("quantity_sold", "0")]).1.sales.map
      Sale.quantity_sold) = [0] ∧
    (process_sale stC7 40
        [("product_id", "1"), ("quantity_sold", "0")]).2.kind
      = FlashKind.success := by
  constructor
  · decide
  · decide

/-- C7 (amended): `process_sale` rejects a request only when the quantity
exceeds the stock.  A request with zero or negative quantity against a
product with non-negative stock is accepted: it creates one `Sale` whose
`quantity_sold` is that non-positive quantity and flashes success (for a
negative quantity the stock decrement then increases the stock). -/
theorem nonpositive_quantity_accepted (st : DB) (now : Int) (form : Form)
    (pid q : Int) (P : Product)
    (hpid : pyInt form "product_id" = some pid)
    (hq : pyInt form "quantity_sold" = some q)
    (hP : findProduct st pid = some P)
    (hq0 : q ≤ 0) (hst : 0 ≤ P.stock_quantity) :
    (process_sale st now form).1.sales = st.sales ++
      [{ id := st.next_sale_id, product_id := pid, quantity_sold := q,
         sale_date := now,
         profit_recorded := (P.selling_price - P.buying_price) * (q : Rat) }] ∧
    findProduct (process_sale st now form).1 pid
      = some { P with stock_quantity := P.stock_quantity - q } ∧
    (process_sale st now form).2.kind = FlashKind.success := by
  have hnl : ¬ P.stock_quantity < q := not_lt.mpr (le_trans hq0 hst)
  refine ⟨?_, ?_, ?_⟩
  · simp [process_sale, hpid, hq, hP, if_neg hnl]
  · simp only [process_sale, hpid, hq, hP, if_neg hnl]
    simp only [findProduct] at hP ⊢
    rw [find?_setStock, hP]
    rfl
  · simp [process_sale, hpid, hq, hP, if_neg hnl]

/-- Concrete run of `nonpositive_quantity_accepted`: quantity −2 against
stock 5 is accepted, recorded with `quantity_sold = −2`, and the stock
rises to 7. -/
theorem nonpositive_quantity_accepted_witness :
    (process_sale stC7 40
        [("product_id", "1"), ("quantity_sold", "-2")]).1.sales = [] ++
      [{ id := 1, product_id := 1, quantity_sold := -2, sale_date := 40,
         profit_recorded := ((5 : Rat) - (2 : Rat)) * ((-2 : Int) : Rat) }] ∧
    findProduct (process_sale stC7 40
        [("product_id", "1"), ("quantity_sold", "-2")]).1 1
      = some { id := 1, name := "w", stock_quantity := 5 - (-2),
               buying_price := 2, selling_price := 5 } ∧
    (process_sale stC7 40
        [("product_id", "1"), ("quantity_sold", "-2")]).2.kind
      = FlashKind.success :=
  nonpositive_quantity_accepted stC7 40
    [("product_id", "1"), ("quantity_sold", "-2")] 1 (-2)
    { id := 1, name := "w", stock_quantity := 5, buying_price := 2,
      selling_price := 5 }
    (by decide) (by decide) (by decide) (by decide) (by decide)

/-- C6 counterexample: deleting product 1 while a `Sale` references it
does not remove it — the flush nulls `Sale.product_id`, the `NOT NULL`
constraint raises `IntegrityError`, the handler flashes danger, and the
product still appears in the `/inventory` listing. -/
theorem delete_with_sales_leaves_product_listed :
    (delete_product stC6 1).1 = stC6 ∧
    (delete_product stC6 1).2.kind = FlashKind.danger ∧
    { id := 1, name := "w", stock_quantity := 6, buying_price := 2,
      selling_price := (5 : Rat) } ∈ inventory (delete_product stC6 1).1 := by
  refine ⟨by decide, by decide, by decide⟩

/-- C6 (amended): `/inventory/delete/<id>` removes an existing product
from the inventory listing when no `Sale` references it; when at least
one `Sale` references it, the commit fails, a danger flash is produced,
and the product remains in the listing, the store unchanged. -/
theorem delete_product_removes_iff_no_sales (st : DB) (pid : Int) (P : Product)
    (hP : findProduct st pid = some P) :
    ((∀ s ∈ st.sales, s.product_id ≠ pid) →
        (delete_product st pid).1.products
            = st.products.filter (fun p => !(p.id == pid)) ∧
        (∀ p ∈ (delete_product st pid).1.products, p.id ≠ pid) ∧
        (delete_product st pid).2.kind = FlashKind.success) ∧
    ((∃ s ∈ st.sales, s.product_id = pid) →
        (delete_product st pid).1 = st ∧
        (delete_product st pid).2.kind = FlashKind.danger ∧
        P ∈ inventory (delete_product st pid).1) := by
  constructor
  · intro hno
    have hany : st.sales.any (fun s => s.product_id == pid) = false := by
      rw [List.any_eq_false]
      intro s hs
      simpa using hno s hs
    refine ⟨by simp [delete_product, hP, hany], ?_,
            by simp [delete_product, hP, hany]⟩
    intro p hp
    simp only [delete_product, hP, hany, Bool.false_eq_true, if_false] at hp
    have := List.of_mem_filter hp
    simpa using this
  · intro ⟨s, hs, hsp⟩
    have hany : st.sales.any (fun s => s.product_id == pid) = true := by
      rw [List.any_eq_true]
      exact ⟨s, hs, by simpa using hsp⟩
    refine ⟨by simp [delete_product, hP, hany], by simp [delete_product, hP, hany], ?_⟩
    have hmem : P ∈ st.products :=
      List.mem_of_find?_eq_some hP
    simpa [delete_product, hP, hany, inventory] using hmem

/-- Concrete run of `delete_product_removes_iff_no_sales`: with no sale on
record, deleting product 1 removes it from the listing with a success
flash. -/
theorem delete_product_removes_iff_no_sales_witness :
    (delete_product
        { products := [{ id := 1, name := "w", stock_quantity := 6,
                         buying_price := 2, selling_price := 5 }],
          sales := [], next_product_id := 2, next_sale_id := 1 } 1).1.products
      = ([{ id := 1, name := "w", stock_quantity := 6, buying_price := 2,
            selling_price := 5 }] : List Product).filter
          (fun p => !(p.id == 1)) ∧
    (delete_product
        { products := [{ id := 1, name := "w", stock_quantity := 6,
                         buying_price := 2, selling_price := 5 }],
          sales := [], next_product_id := 2, next_sale_id := 1 } 1).2.kind
      = FlashKind.success := by
  have h := (delete_product_removes_iff_no_sales
    { products := [{ id := 1, name := "w", stock_quantity := 6,
                     buying_price := 2, selling_price := 5 }],
      sales := [], next_product_id := 2, next_sale_id := 1 } 1
    { id := 1, name := "w", stock_quantity := 6, buying_price := 2,
      selling_price := 5 }
    (by decide)).1 (by decide)
  exact ⟨h.1, h.2.2⟩

/-- Summing a function over a filtered list equals summing its guarded
version over the whole list. -/
theorem sum_map_filter_eq (l : List Sale) (pb : Sale → Bool) (f : Sale → Rat) :
    ((l.filter pb).map f).sum
      = (l.map (fun s => if pb s then f s else 0)).sum := by
  induction l with
  | nil => rfl
  | cons a t ih =>
    by_cases h : pb a
    · simp [List.filter_cons, h, ih]
    · simp [List.filter_cons, h, ih]

/-- The dashboard's revenue loop computes the accumulator plus the sum of
report-time price times quantity, whenever every product it dereferences
exists. -/
theorem revenueOfSales_eq (st : DB) :
    ∀ (l : List Sale) (acc : Rat),
      (∀ s ∈ l, (findProduct st s.product_id).isSome = true) →
      revenueOfSales st acc l
        = some (acc +
            (l.map (fun s => lookupPrice st s * (s.quantity_sold : Rat))).sum)
  | [], acc, _ => by simp [revenueOfSales]
  | s :: t, acc, h => by
    have hs := h s (List.mem_cons_self s t)
    obtain ⟨p, hp⟩ := Option.isSome_iff_exists.mp hs
    have ht : ∀ x ∈ t, (findProduct st x.product_id).isSome = true :=
      fun x hx => h x (List.mem_cons_of_mem s hx)
    simp only [revenueOfSales, hp]
    rw [revenueOfSales_eq st t (acc + p.selling_price * (s.quantity_sold : Rat)) ht]
    simp [lookupPrice, hp, add_assoc]

/-- C5 counterexample: the store's only sale is dated exactly `now`, so
the claimed half-open window `[now − 7 days, now)` contains no sale and
the claimed totals are 0 — yet the dashboard, whose query has no upper
bound (`sale_date >= week_ago` only), reports revenue 5 and profit 3 from
that very sale. -/
theorem dashboard_counts_sale_dated_now :
    stC5.sales.filter (fun s => specWindowMem 1000 s) = [] ∧
    dashboard stC5 1000 = some (5, 3) ∧
    (5 : Rat) ≠ 0 ∧ (3 : Rat) ≠ 0 := by
  refine ⟨by decide, ?_, by norm_num, by norm_num⟩
  have hws : weeklySales stC5 1000 = stC5.sales := by decide
  have hrev := revenueOfSales_eq stC5 (weeklySales stC5 1000) 0 (by decide)
  rw [hws] at hrev
  have hlp : lookupPrice stC5
      { id := 1, product_id := 1, quantity_sold := 1, sale_date := 1000,
        profit_recorded := 3 } = 5 := by decide
  have hml : stC5.sales
      = [{ id := 1, product_id := 1, quantity_sold := 1, sale_date := 1000,
           profit_recorded := 3 }] := rfl
  rw [hml] at hrev
  simp only [dashboard, weeklyProfit, hws, hrev, hml, List.map_cons,
    List.map_nil, List.sum_cons, List.sum_nil, hlp]
  norm_num

/-- C5 (amended): the dashboard's weekly figures aggregate exactly the
sales with `sale_date ≥ now − 7 days` — lower bound inclusive, no upper
bound, so a sale dated at or after `now` also contributes.  Over those
sales, revenue is the sum of report-time selling price times quantity and
profit is the sum of the frozen `profit_recorded`; every sale before the
lower bound contributes nothing. -/
theorem dashboard_weekly_totals (st : DB) (now : Int)
    (h : ∀ s ∈ st.sales, codeWindowMem now s = true →
      (findProduct st s.product_id).isSome = true) :
    dashboard st now
      = some (specWeeklyRevenueLB st now, specWeeklyProfitLB st now) := by
  have hw : ∀ s ∈ weeklySales st now,
      (findProduct st s.product_id).isSome = true := by
    intro s hs
    have hm := List.mem_filter.mp hs
    exact h s hm.1 hm.2
  have hrev := revenueOfSales_eq st (weeklySales st now) 0 hw
  have h1 : ((weeklySales st now).map
      (fun s => lookupPrice st s * (s.quantity_sold : Rat))).sum
      = specWeeklyRevenueLB st now := by
    rw [weeklySales, sum_map_filter_eq]
    rfl
  have h2 : weeklyProfit st now = specWeeklyProfitLB st now := by
    rw [weeklyProfit, weeklySales, sum_map_filter_eq]
    rfl
  simp only [dashboard, hrev, zero_add, h1, h2]

/-- Concrete run of `dashboard_weekly_totals` on `stC5`, whose products
all exist: the dashboard output coincides with the reference totals. -/
theorem dashboard_weekly_totals_witness :
    dashboard stC5 1000
      = some (specWeeklyRevenueLB stC5 1000, specWeeklyProfitLB stC5 1000) :=
  dashboard_weekly_totals stC5 1000 (by decide)

/-- Updating the matching row through an id-preserving rewrite commutes
with `find?` on the id. -/
theorem find?_mapIf (ps : List Product) (pid : Int) (f : Product → Product)
    (hf : ∀ p, (f p).id = p.id) :
    List.find? (fun p => p.id == pid)
        (ps.map (fun p => if p.id == pid then f p else p))
      = (List.find? (fun p => p.id == pid) ps).map f := by
  rw [List.find?_map]
  have hpred : ((fun p : Product => p.id == pid) ∘
      fun p => if p.id == pid then f p else p)
      = (fun p : Product => p.id == pid) := by
    funext a
    by_cases h : a.id = pid <;> simp [h, hf]
  rw [hpred]
  cases hfind : List.find? (fun p : Product => p.id == pid) ps with
  | none => rfl
  | some p0 =>
    have hp0 := List.find?_some hfind
    simp only [] at hp0
    have heq : p0.id = pid := by simpa using hp0
    simp [heq]

/-- The four-column edit rewrites exactly the row `find?` locates. -/
theorem find?_setFields (ps : List Product) (pid : Int) (nm : String)
    (sq : Int) (bp sp : Rat) :
    List.find? (fun p => p.id == pid) (setFields ps pid nm sq bp sp)
      = (List.find? (fun p => p.id == pid) ps).map
          (fun p => { p with name := nm, stock_quantity := sq, buying_price := bp, selling_price := sp }) :=
  find?_mapIf ps pid
    (fun p => { p with name := nm, stock_quantity := sq, buying_price := bp, selling_price := sp })
    (fun _ => rfl)

/-- C9: the dashboard reads each sale's product price at report time, so a
successful `/inventory/edit/<id>` replaces the price used for the weekly
revenue of all of that product's sales — past ones included — with the
newly posted `selling_price`, while the weekly profit, drawn from the
frozen `profit_recorded` of an untouched `Sale` table, is unchanged. -/
theorem revenue_uses_report_time_price (st : DB) (now : Int) (pid : Int)
    (form : Form) (nm : String) (sq : Int) (bp sp : Rat) (P : Product)
    (hP : findProduct st pid = some P)
    (hnm : formGet form "name" = some nm)
    (hsq : pyIntD0 form "stock_quantity" = some sq)
    (hbp : pyFloatD0 form "buying_price" = some bp)
    (hsp : pyFloatD0 form "selling_price" = some sp) :
    (edit_product st pid form).1.sales = st.sales ∧
    weeklyProfit (edit_product st pid form).1 now = weeklyProfit st now ∧
    findProduct (edit_product st pid form).1 pid
      = some { P with name := nm, stock_quantity := sq, buying_price := bp, selling_price := sp } ∧
    (∀ s : Sale, s.product_id = pid →
      lookupPrice (edit_product st pid form).1 s = sp) := by
  have hsales : (edit_product st pid form).1.sales = st.sales := by
    simp [edit_product, hP, hnm, hsq, hbp, hsp]
  have hfind : findProduct (edit_product st pid form).1 pid
      = some { P with name := nm, stock_quantity := sq, buying_price := bp, selling_price := sp } := by
    simp only [edit_product, hP, hnm, hsq, hbp, hsp]
    simp only [findProduct] at hP ⊢
    rw [find?_setFields, hP]
    rfl
  refine ⟨hsales, ?_, hfind, ?_⟩
  · simp only [weeklyProfit, weeklySales, hsales]
  · intro s hsid
    simp only [lookupPrice, hsid, hfind]

/-- Concrete run of `revenue_uses_report_time_price`: before the edit the
recorded sale is priced at 5, afterwards at 50, while the sale table and
the weekly profit are untouched. -/
theorem revenue_uses_report_time_price_witness :
    lookupPrice stC9
        { id := 1, product_id := 1, quantity_sold := 1, sale_date := 900,
          profit_recorded := 3 } = 5 ∧
    lookupPrice (edit_product stC9 1 formC9).1
        { id := 1, product_id := 1, quantity_sold := 1, sale_date := 900,
          profit_recorded := 3 } = 50 ∧
    (edit_product stC9 1 formC9).1.sales = stC9.sales ∧
    weeklyProfit (edit_product stC9 1 formC9).1 1000
      = weeklyProfit stC9 1000 := by
  have h := revenue_uses_report_time_price stC9 1000 1 formC9 "w" 9 2 50
    { id := 1, name := "w", stock_quantity := 9, buying_price := 2,
      selling_price := 5 }
    (by decide) (by decide) (by decide) (by decide) (by decide)
  exact ⟨by decide,
    h.2.2.2 { id := 1, product_id := 1, quantity_sold := 1, sale_date := 900,
              profit_recorded := 3 } rfl,
    h.1, h.2.1⟩
